import Mathlib

set_option autoImplicit false

/-
Shallow embedding of the pl-scraper repository (src/main.py and
src/pl_scraper.py) for checking the specification claims.

The fetched pages are modelled as BeautifulSoup exposes them: a sequence
of nodes in document order.  A comment node carries the markup hidden in
its text; bs4 represents a comment as a string-like object, so
soup.find never descends into it.  A table node carries the attributes
soup.find matches on (id, class list) and the frame pandas read_html
produces from it (header and data rows).
-/

namespace PLScraper

/-- Column header of the frame `pd.read_html(str(table))[0]` returns:
either a flat index of string names or a MultiIndex, one segment tuple
per column (modelled as a list of segments). -/
inductive Header where
  | flat (names : List String)
  | multi (cols : List (List String))
deriving DecidableEq

/-- Number of columns of a header (`len(df.columns)`). -/
def Header.numCols : Header → Nat
  | .flat names => names.length
  | .multi cols => cols.length

/-- A located table fragment: the tag attributes `soup.find` matches on
plus the frame pandas reads from its markup.  Cells are modelled as
strings (opaque scalars). -/
structure RawTable where
  id : Option String
  classes : List String
  header : Header
  rows : List (List String)
deriving DecidableEq

/-- A node of the parsed page: a table element, or an HTML comment whose
text holds the given (hidden) markup. -/
inductive Node where
  | comment (hidden : List Node)
  | table (t : RawTable)

/-- The class lookup `soup.find` of a table carrying the class
stats_table (src/main.py:115,184 and src/pl_scraper.py:61): the first
table element in document order whose class attribute contains the
marker class.  Comment nodes are plain strings to bs4 and are never
searched or re-parsed. -/
def findTableByClass : List Node → Option RawTable
  | [] => none
  | Node.comment _ :: rest => findTableByClass rest
  | Node.table t :: rest =>
      if "stats_table" ∈ t.classes then some t else findTableByClass rest

/-- The id lookup `soup.find` of a table with the given id attribute
(src/main.py:152 and src/pl_scraper.py:59,94,118): the first table
element in document order with that id.  Comment nodes are never
searched. -/
def findTableById (tid : String) : List Node → Option RawTable
  | [] => none
  | Node.comment _ :: rest => findTableById tid rest
  | Node.table t :: rest =>
      if t.id = some tid then some t else findTableById tid rest

/-- The identical document with the markup hidden in each top-level
comment spliced in unwrapped.  This is the comparison document of the
comment-unwrapping transparency property; no function of the source
performs this step. -/
def unwrapComments : List Node → List Node
  | [] => []
  | Node.comment hidden :: rest => hidden ++ unwrapComments rest
  | Node.table t :: rest => Node.table t :: unwrapComments rest

/-- The Python string strip operation: removes leading and trailing
whitespace.  Defined over the character list so that the kernel can
evaluate it. -/
def pyStrip (s : String) : String :=
  String.mk (((s.data.dropWhile Char.isWhitespace).reverse.dropWhile
    Char.isWhitespace).reverse)

/-- The Python startswith test, over the character lists. -/
def pyStartsWith (s p : String) : Bool :=
  p.data.isPrefixOf s.data

/-- One flattened column name: the source joins every segment of a
MultiIndex tuple with an underscore and strips the result
(src/main.py:125,159).  Placeholder segments are joined like any
other segment. -/
def flattenName (segs : List String) : String :=
  pyStrip (String.intercalate "_" segs)

/-- `df.columns` after the MultiIndex flattening step
(src/main.py:124-125,158-159): a flat index is left as is; a MultiIndex
is mapped through `flattenName`. -/
def flattenColumns : Header → List String
  | .flat names => names
  | .multi cols => cols.map flattenName

/-- Rendering of a column label when the frame is used without the
flattening step (src/main.py:186-187 keeps `df.columns` untouched).  A
MultiIndex tuple label is rendered opaquely; no verified property
inspects these labels. -/
def rawColumns : Header → List String
  | .flat names => names
  | .multi cols => cols.map (fun segs => String.intercalate ", " segs)

/-- The canonical tabular value handed to the publisher: flat column
names and data rows. -/
structure Dataset where
  columns : List String
  rows : List (List String)
deriving DecidableEq

/-- The cleaning block of `get_premier_league_table` (src/main.py:117-129):
requires more than one column, flattens a MultiIndex header, appends the
Last_Updated column stamped with the current time, and keeps every data
row.  When the frame has at most one column the function falls through
and returns None. -/
def cleanLeagueTable (t : RawTable) (now : String) : Option Dataset :=
  if t.header.numCols > 1 then
    some { columns := flattenColumns t.header ++ ["Last_Updated"],
           rows := t.rows.map (fun r => r ++ [now]) }
  else none

/-- The cleaning block of `get_player_stats` (src/main.py:154-163):
flattens a MultiIndex header, appends the last_updated column, keeps
every data row. -/
def cleanPlayerStats (t : RawTable) (now : String) : Dataset :=
  { columns := flattenColumns t.header ++ ["last_updated"],
    rows := t.rows.map (fun r => r ++ [now]) }

/-- The cleaning block of `get_fixtures_and_results` (src/main.py:185-189):
appends the last_updated column, keeps columns and data rows as read. -/
def cleanFixtures (t : RawTable) (now : String) : Dataset :=
  { columns := rawColumns t.header ++ ["last_updated"],
    rows := t.rows.map (fun r => r ++ [now]) }

/-- An HTTP response as the code consumes it: the status it logs and the
parsed body.  `requests.get` never raises in this model; a network-level
fault can be modelled by a response whose body holds no table, since the
surrounding `except` clause also yields None. -/
structure HttpResponse where
  status : Nat
  body : List Node

def baseUrl : String := "https://fbref.com"

def plTableUrl : String := baseUrl ++ "/en/comps/9/Premier-League-Stats"

def playerStatsUrl : String := baseUrl ++ "/en/comps/9/stats/Premier-League-Stats"

def fixturesUrl : String := baseUrl ++ "/en/comps/9/schedule/Premier-League-Fixtures"

/-- `get_premier_league_table` (src/main.py:103-135): issues exactly one
`requests.get` of the league page, parses the body whatever the status
(the code only logs `response.status_code`), looks for the first table
with the marker class, and cleans it.  First component: the urls
requested over the network, in order.  All failure paths return none. -/
def getPremierLeagueTable (server : String → HttpResponse) (now : String) :
    List String × Option Dataset :=
  let resp := server plTableUrl
  ([plTableUrl],
    match findTableByClass resp.body with
    | some t => cleanLeagueTable t now
    | none => none)

/-- `get_player_stats` (src/main.py:137-169): one `requests.get` of the
aggregate stats page, lookup of the table with id stats_standard,
cleaning.  All failure paths return none. -/
def getPlayerStats (server : String → HttpResponse) (now : String) :
    List String × Option Dataset :=
  let resp := server playerStatsUrl
  ([playerStatsUrl],
    match findTableById "stats_standard" resp.body with
    | some t => some (cleanPlayerStats t now)
    | none => none)

/-- `get_fixtures_and_results` (src/main.py:171-195): one `requests.get`
of the schedule page, class lookup, cleaning. -/
def getFixturesAndResults (server : String → HttpResponse) (now : String) :
    List String × Option Dataset :=
  let resp := server fixturesUrl
  ([fixturesUrl],
    match findTableByClass resp.body with
    | some t => some (cleanFixtures t now)
    | none => none)

/-- State of the Google Sheets side: whether `self.gc` was initialized
(src/main.py:34-82) and whether `gc.list_spreadsheet_files()` succeeds. -/
structure GoogleEnv where
  hasClient : Bool
  listFilesOk : Bool
deriving DecidableEq

/-- `test_google_connection` (src/main.py:84-101): False when no client
was initialized, otherwise the outcome of listing the spreadsheet
files. -/
def testGoogleConnection (g : GoogleEnv) : Bool :=
  g.hasClient && g.listFilesOk

/-- The list-of-rows payload `update_google_sheet` writes with one
`worksheet.update` call (src/main.py:244-252): the column-name row
followed by the data rows, truncated to the first 1000 rows when longer.
When `data.empty` holds nothing is written; the datasets of this program
always carry at least one column (a timestamp column is always
appended), so emptiness is emptiness of the row list. -/
def sheetPayload (d : Dataset) : Option (List (List String)) :=
  if d.rows = [] then none
  else
    let dataList := d.columns :: d.rows
    some (if dataList.length > 1000 then dataList.take 1000 else dataList)

/-- `update_google_sheet` (src/main.py:197-258): returns without writing
when no client is connected, otherwise writes the payload. -/
def updateGoogleSheet (g : GoogleEnv) (d : Dataset) : Option (List (List String)) :=
  if g.hasClient then sheetPayload d else none

/-- The run environment of one `full_update` call: the Google side and
the source site, the latter as a map from url to response. -/
structure RunEnv where
  google : GoogleEnv
  server : String → HttpResponse

/-- Observable outcome of one run: the urls requested over the network,
in order, and the (worksheet name, payload) writes performed, in
order. -/
structure RunResult where
  sent : List String
  published : List (String × List (List String))
deriving DecidableEq

/-- The publish step `full_update` performs for one dataset
(src/main.py:279-295): when the getter returned data, hand it to
`update_google_sheet`; record a write only when one happens. -/
def pubEntry (g : GoogleEnv) (name : String) :
    Option Dataset → List (String × List (List String))
  | some d =>
      match updateGoogleSheet g d with
      | some payload => [(name, payload)]
      | none => []
  | none => []

/-- `full_update` (src/main.py:260-297): tests the Google connection
first and returns at once when it fails; otherwise runs the three
getters in order and publishes each dataset that was produced. -/
def fullUpdate (env : RunEnv) (now : String) : RunResult :=
  if testGoogleConnection env.google = false then
    { sent := [], published := [] }
  else
    let tableRun := getPremierLeagueTable env.server now
    let playerRun := getPlayerStats env.server now
    let fixturesRun := getFixturesAndResults env.server now
    { sent := tableRun.1 ++ playerRun.1 ++ fixturesRun.1,
      published :=
        pubEntry env.google "League_Table" tableRun.2 ++
        pubEntry env.google "Player_Stats" playerRun.2 ++
        pubEntry env.google "Fixtures_Results" fixturesRun.2 }

/-- The per-destination view of a run: the writes that went to the given
worksheet. -/
def outcomeFor (name : String) (r : RunResult) :
    List (String × List (List String)) :=
  r.published.filter (fun p => p.1 == name)

/-- Table lookup of `get_premier_league_table` in src/pl_scraper.py:59-61:
one id candidate, then the marker-class fallback. -/
def plScraperLocate (doc : List Node) : Option RawTable :=
  match findTableById "results2024-202591_overall" doc with
  | some t => some t
  | none => findTableByClass doc

/-- The id-candidate phase of the lookup over an ordered candidate list:
an id lookup `soup.find` for each candidate in order, first hit wins.
src/pl_scraper.py:59 instantiates it with the one-element list; the
class-only lookup of src/main.py:115 is the empty list. -/
def findTableByIds : List String → List Node → Option RawTable
  | [], _ => none
  | c :: cs, doc =>
      match findTableById c doc with
      | some t => some t
      | none => findTableByIds cs doc

/-- The table lookup over an ordered id-candidate list with the
marker-class fallback, the common shape of the lookups of
src/pl_scraper.py:59-61 and src/main.py:115 (see the instantiation
lemmas below). -/
def locateTable (cands : List String) (doc : List Node) : Option RawTable :=
  match findTableByIds cands doc with
  | some t => some t
  | none => findTableByClass doc

/-- Modelled from the spec: a placeholder header segment, the
auto-generated unnamed label pandas produces for a blank header cell
(the spec calls these placeholder segments).  Comparison definition
only; nothing in the source tests for it. -/
def isPlaceholderSeg (s : String) : Bool :=
  pyStartsWith s "Unnamed:"

/-- Modelled from the spec (section 4.4 header flattening): the column
name formed by joining the non-empty, non-placeholder header segments
with an underscore, trimming, with the fallback name col when no
meaningful segment remains.  Comparison definition only; the source
performs `flattenName`. -/
def specFlattenName (segs : List String) : String :=
  let keep := segs.filter (fun s => !(pyStrip s == "") && !(isPlaceholderSeg s))
  if keep.isEmpty then "col" else pyStrip (String.intercalate "_" keep)

/-- Fixture: a league-type table with the marker class, a flat header and
a repeated-header data row (first data row equal to the header labels). -/
def tblClass : RawTable :=
  { id := none, classes := ["stats_table"],
    header := Header.flat ["Squad", "Points"],
    rows := [["Squad", "Points"], ["Arsenal", "10"]] }

/-- Fixture: the dataset `cleanLeagueTable` produces from `tblClass` at
time T. -/
def leagueOut : Dataset :=
  { columns := ["Squad", "Points", "Last_Updated"],
    rows := [["Squad", "Points", "T"], ["Arsenal", "10", "T"]] }

/-- Fixture: a player-stats table with the id stats_standard, the marker
class and a two-row (MultiIndex) header whose top segments are pandas
placeholder labels. -/
def tblStd : RawTable :=
  { id := some "stats_standard", classes := ["stats_table"],
    header := Header.multi [["Unnamed: 0_level_0", "Rk"],
                            ["Unnamed: 1_level_0", "Player"]],
    rows := [["1", "Saka"]] }

/-- Fixture: a table whose id is the candidate src/pl_scraper.py:59 looks
for, carrying no marker class. -/
def tblTarget : RawTable :=
  { id := some "results2024-202591_overall", classes := [],
    header := Header.flat ["Squad", "Pts"],
    rows := [["Arsenal", "10"]] }

/-- Fixture: a document in which a marker-class table precedes the table
matching the id candidate. -/
def docPrec : List Node :=
  [Node.table tblClass, Node.table tblTarget]

/-- Fixture: a source site that answers every request with HTTP 429 and
an empty body. -/
def srv429 : String → HttpResponse :=
  fun _ => { status := 429, body := [] }

/-- Fixture: a source site on which every page holds both the
stats_standard table and a marker-class table. -/
def srvGood : String → HttpResponse :=
  fun _ => { status := 200, body := [Node.table tblStd, Node.table tblClass] }

/-- Fixture: like `srvGood`, except that the league page request fails
with a 500 and an empty body. -/
def srvTableDown : String → HttpResponse := fun url =>
  if url = plTableUrl then { status := 500, body := [] } else srvGood url

/-- Fixture: a working Google side. -/
def googleUp : GoogleEnv :=
  { hasClient := true, listFilesOk := true }

/-- Fixture: a fully working run environment. -/
def envGood : RunEnv :=
  { google := googleUp, server := srvGood }

/-- Fixture: a run environment whose league page is down. -/
def envTableDown : RunEnv :=
  { google := googleUp, server := srvTableDown }

/-- Fixture: a run environment in which no Google client was
initialized. -/
def envNoGoogle : RunEnv :=
  { google := { hasClient := false, listFilesOk := true }, server := srvGood }

/-- Fixture: a dataset with 1000 data rows, enough to hit the row cap. -/
def bigDataset : Dataset :=
  { columns := ["A", "B"], rows := List.replicate 1000 ["x", "y"] }

/-- Fixture: the MultiIndex tuple of the first column of `tblStd`. -/
def placeholderSegs : List String :=
  ["Unnamed: 0_level_0", "Rk"]

/-- Instantiation: the lookup of src/pl_scraper.py:59-61 is `locateTable`
at its one-element candidate list. -/
theorem locateTable_plScraper (doc : List Node) :
    locateTable ["results2024-202591_overall"] doc = plScraperLocate doc := by
  unfold locateTable plScraperLocate findTableByIds
  cases findTableById "results2024-202591_overall" doc <;> rfl

/-- Instantiation: the class-only lookup of src/main.py:115 is
`locateTable` at the empty candidate list. -/
theorem locateTable_main (doc : List Node) :
    locateTable [] doc = findTableByClass doc := by
  simp [locateTable, findTableByIds]

/-- Claim C1, counterexample: against a source site that always answers
HTTP 429, `get_premier_league_table` issues exactly one request and
returns None.  The claim states that the fetcher retries up to the
configured maximum number of attempts (default 5), sleeps between
attempts and returns a Failed outcome with status 429 only after
exhausting all attempts, never giving up on the first 429; the trace of
one single request with result none refutes it at this input. -/
theorem C1_counterexample :
    (getPremierLeagueTable srv429 "T").1.length = 1 ∧
    (getPremierLeagueTable srv429 "T").2 = none := by
  exact ⟨rfl, rfl⟩

/-- Claim C1 (amended): every fetch of a source page issues exactly one
HTTP request, whatever the response status; there is no retry, no
Retry-After handling and no backoff sleep, and a 429 simply leaves the
page without a located table, so the getter returns None on the first
429. -/
theorem C1_single_request (server : String → HttpResponse) (now : String) :
    (getPremierLeagueTable server now).1 = [plTableUrl] ∧
    (getPlayerStats server now).1 = [playerStatsUrl] ∧
    (getFixturesAndResults server now).1 = [fixturesUrl] :=
  ⟨rfl, rfl, rfl⟩

/-- Claim C2, counterexample: for the document whose only node is an HTML
comment hiding a marker-class table, the table lookup returns none,
while on the identical document with that markup unwrapped it returns
the table — the two lookups differ, refuting the claimed
comment-unwrapping transparency. -/
theorem C2_counterexample :
    findTableByClass [Node.comment [Node.table tblClass]] ≠
      findTableByClass (unwrapComments [Node.comment [Node.table tblClass]]) ∧
    findTableByClass (unwrapComments [Node.comment [Node.table tblClass]])
      = some tblClass := by
  have h1 : findTableByClass [Node.comment [Node.table tblClass]] = none := rfl
  have h2 : findTableByClass (unwrapComments [Node.comment [Node.table tblClass]])
      = some tblClass := rfl
  refine ⟨?_, h2⟩
  intro hcontra
  rw [h1, h2] at hcontra
  exact Option.noConfusion hcontra

/-- Claim C2 (amended): the table lookup never searches inside HTML
comment nodes and performs no re-parsing of comment text: in a document
consisting only of comments, both the class lookup and any id lookup
find no table, whatever markup the comments hide. -/
theorem C2_no_comment_unwrapping (doc : List Node) (tid : String)
    (h : ∀ n ∈ doc, ∃ hidden, n = Node.comment hidden) :
    findTableByClass doc = none ∧ findTableById tid doc = none := by
  induction doc with
  | nil => exact ⟨rfl, rfl⟩
  | cons n rest ih =>
    obtain ⟨hidden, rfl⟩ := h n (List.mem_cons_self n rest)
    have hrest := ih (fun m hm => h m (List.mem_cons_of_mem _ hm))
    simpa [findTableByClass, findTableById] using hrest

/-- Witness for `C2_no_comment_unwrapping` at the comment-wrapped
fixture document. -/
theorem C2_witness :
    findTableByClass [Node.comment [Node.table tblClass]] = none ∧
    findTableById "stats_standard" [Node.comment [Node.table tblClass]] = none :=
  C2_no_comment_unwrapping [Node.comment [Node.table tblClass]] "stats_standard"
    (by
      intro n hn
      rw [List.mem_singleton] at hn
      exact ⟨[Node.table tblClass], hn⟩)

/-- Claim C5, counterexample: cleaning the fixture table keeps the data
row whose Squad and Points values equal the header labels — it appears
in the canonical output (first row of `leagueOut`), refuting the claimed
repeated-header-row removal. -/
theorem C5_counterexample :
    cleanLeagueTable tblClass "T" = some leagueOut ∧
    ["Squad", "Points", "T"] ∈ leagueOut.rows := by
  exact ⟨rfl, by simp [leagueOut]⟩

/-- Claim C5 (amended): normalization drops no data rows at all: every
row of the raw table, including rows whose value in a Squad, Team or Rk
column equals the header label, is retained with the timestamp cell
appended. -/
theorem C5_rows_retained (t : RawTable) (now : String) :
    (cleanPlayerStats t now).rows = t.rows.map (fun r => r ++ [now]) ∧
    (∀ d, cleanLeagueTable t now = some d →
      d.rows = t.rows.map (fun r => r ++ [now])) := by
  refine ⟨rfl, ?_⟩
  intro d hd
  unfold cleanLeagueTable at hd
  split at hd
  · cases hd
    rfl
  · cases hd

/-- Witness for `C5_rows_retained` at the fixture table with a repeated
header row. -/
theorem C5_witness :
    leagueOut.rows = tblClass.rows.map (fun r => r ++ ["T"]) :=
  (C5_rows_retained tblClass "T").2 leagueOut rfl

/-- Claim C6, counterexample: the flattened name of the column whose
MultiIndex tuple is (Unnamed: 0_level_0, Rk) is the join of all
segments, placeholder included, not the join of the meaningful segments
the claim describes (`specFlattenName`), and the cleaned player-stats
fixture exposes exactly these placeholder-bearing column names. -/
theorem C6_counterexample :
    flattenName placeholderSegs = "Unnamed: 0_level_0_Rk" ∧
    specFlattenName placeholderSegs = "Rk" ∧
    flattenName placeholderSegs ≠ specFlattenName placeholderSegs ∧
    (cleanPlayerStats tblStd "T").columns
      ≠ ["Rk", "Player", "last_updated"] ∧
    (cleanPlayerStats tblStd "T").columns
      = ["Unnamed: 0_level_0_Rk", "Unnamed: 1_level_0_Player", "last_updated"] := by
  refine ⟨rfl, rfl, by decide, by decide, rfl⟩

/-- Claim C6 (amended): for every table with a multi-row header, each
flattened output column name is the underscore-join of all of that
column header segments — empty and placeholder segments included —
trimmed; there is no fallback name for columns without meaningful
segments. -/
theorem C6_flatten_all_segments (cols : List (List String))
    (rows : List (List String)) (tid : Option String) (cl : List String)
    (now : String) :
    (cleanPlayerStats
        { id := tid, classes := cl, header := Header.multi cols, rows := rows }
        now).columns
      = cols.map (fun segs => pyStrip (String.intercalate "_" segs))
        ++ ["last_updated"] :=
  rfl

/-- Helper: when no candidate id matches, the candidate phase of the
lookup yields nothing. -/
theorem findTableByIds_eq_none (cands : List String) (doc : List Node)
    (h : ∀ c ∈ cands, findTableById c doc = none) :
    findTableByIds cands doc = none := by
  induction cands with
  | nil => rfl
  | cons c cs ih =>
    unfold findTableByIds
    rw [h c (List.mem_cons_self c cs)]
    exact ih (fun x hx => h x (List.mem_cons_of_mem _ hx))

/-- Helper: the candidate phase returns the match of the first candidate
that matches, in candidate order. -/
theorem findTableByIds_first (l : List String) (c : String) (r : List String)
    (doc : List Node) (t : RawTable)
    (hl : ∀ cl ∈ l, findTableById cl doc = none)
    (hc : findTableById c doc = some t) :
    findTableByIds (l ++ c :: r) doc = some t := by
  induction l with
  | nil =>
    simp only [List.nil_append]
    unfold findTableByIds
    rw [hc]
  | cons x xs ih =>
    simp only [List.cons_append]
    unfold findTableByIds
    rw [hl x (List.mem_cons_self x xs)]
    exact ih (fun y hy => hl y (List.mem_cons_of_mem _ hy))

/-- Claim C8: the table lookup tries the id candidates in order and
returns the match of the first candidate that matches any table; only
when no candidate matches any table does it fall back to the first
table carrying the marker class — so an id match takes precedence over
the class fallback for every document, including documents in which a
class-marked table appears earlier. -/
theorem C8_id_precedence (cands : List String) (doc : List Node) :
    ((∀ c ∈ cands, findTableById c doc = none) →
      locateTable cands doc = findTableByClass doc) ∧
    (∀ (l : List String) (c : String) (r : List String) (t : RawTable),
      cands = l ++ c :: r →
      (∀ cl ∈ l, findTableById cl doc = none) →
      findTableById c doc = some t →
      locateTable cands doc = some t) := by
  constructor
  · intro h
    unfold locateTable
    rw [findTableByIds_eq_none cands doc h]
  · intro l c r t hcands hl hc
    unfold locateTable
    rw [hcands, findTableByIds_first l c r doc t hl hc]

/-- Witness for `C8_id_precedence` at the fixture document in which a
marker-class table precedes the table matching the single id candidate
of src/pl_scraper.py:59: the id match wins. -/
theorem C8_witness :
    locateTable ["results2024-202591_overall"] docPrec = some tblTarget :=
  (C8_id_precedence ["results2024-202591_overall"] docPrec).2
    [] "results2024-202591_overall" [] tblTarget rfl
    (by intro cl hcl; cases hcl) rfl

/-- Claim C9: for every non-empty dataset the published payload is the
header row followed by the data rows, truncated to the first 1000 rows:
at most 1000 output rows in total, and a dataset with 1000 or more data
rows keeps only the first 999 of them, so its trailing rows are silently
dropped before the write. -/
theorem C9_payload_capped (d : Dataset) (h : d.rows ≠ []) :
    sheetPayload d = some ((d.columns :: d.rows).take 1000) ∧
    ∀ p, sheetPayload d = some p →
      p.length ≤ 1000 ∧
      (1000 ≤ d.rows.length → p = d.columns :: d.rows.take 999) := by
  have h1 : sheetPayload d = some ((d.columns :: d.rows).take 1000) := by
    simp only [sheetPayload, if_neg h]
    split
    · rfl
    · next hlen => rw [List.take_of_length_le (by omega)]
  refine ⟨h1, ?_⟩
  intro p hp
  rw [h1] at hp
  cases hp
  constructor
  · rw [List.length_take]
    exact min_le_left _ _
  · intro hge
    have h1000 : (1000 : Nat) = 999 + 1 := rfl
    rw [h1000, List.take_succ_cons]

/-- Witness for `C9_payload_capped` at a dataset with 1000 data rows. -/
theorem C9_witness :
    sheetPayload bigDataset = some ((bigDataset.columns :: bigDataset.rows).take 1000) ∧
    ∀ p, sheetPayload bigDataset = some p →
      p.length ≤ 1000 ∧
      (1000 ≤ bigDataset.rows.length →
        p = bigDataset.columns :: bigDataset.rows.take 999) :=
  C9_payload_capped bigDataset
    (by
      show List.replicate 1000 ["x", "y"] ≠ []
      apply List.ne_nil_of_length_pos
      rw [List.length_replicate]
      norm_num)

/-- Claim C10: when the Google Sheets connectivity test fails (no client
initialized, or the listing call fails), `full_update` returns before
issuing any HTTP request to the source site: no url is requested and
nothing is published. -/
theorem C10_no_fetch_without_google (env : RunEnv) (now : String)
    (h : testGoogleConnection env.google = false) :
    (fullUpdate env now).sent = [] ∧ (fullUpdate env now).published = [] := by
  unfold fullUpdate
  rw [if_pos h]
  exact ⟨rfl, rfl⟩

/-- Witness for `C10_no_fetch_without_google` at the environment without
an initialized Google client. -/
theorem C10_witness :
    (fullUpdate envNoGoogle "T").sent = [] ∧
    (fullUpdate envNoGoogle "T").published = [] :=
  C10_no_fetch_without_google envNoGoogle "T" rfl

/-- Helper: filtering the publish record of one dataset for a worksheet
name keeps it exactly when the names agree. -/
theorem filter_pubEntry (g : GoogleEnv) (n m : String) (d : Option Dataset) :
    (pubEntry g n d).filter (fun p => p.1 == m) =
      if (n == m) then pubEntry g n d else [] := by
  cases d with
  | none =>
    simp only [pubEntry, List.filter_nil]
    cases (n == m) <;> rfl
  | some d =>
    simp only [pubEntry]
    cases hupd : updateGoogleSheet g d with
    | none =>
      simp only [List.filter_nil]
      cases (n == m) <;> rfl
    | some payload =>
      cases hnm : (n == m) <;> simp [List.filter_cons, hnm]

/-- Helper: the per-destination view of a full run, by destination
name. -/
theorem outcomeFor_run (env : RunEnv) (now : String) (m : String) :
    outcomeFor m (fullUpdate env now) =
      if testGoogleConnection env.google = false then []
      else
        (if (("League_Table" : String) == m) then
          pubEntry env.google "League_Table" (getPremierLeagueTable env.server now).2
        else []) ++
        (if (("Player_Stats" : String) == m) then
          pubEntry env.google "Player_Stats" (getPlayerStats env.server now).2
        else []) ++
        (if (("Fixtures_Results" : String) == m) then
          pubEntry env.google "Fixtures_Results" (getFixturesAndResults env.server now).2
        else []) := by
  by_cases hc : testGoogleConnection env.google = false
  · simp [outcomeFor, fullUpdate, hc]
  · simp only [outcomeFor, fullUpdate, if_neg hc]
    simp only [List.filter_append, filter_pubEntry]

/-- Helper: the per-destination view for the three destination names. -/
theorem outcomeFor_player (env : RunEnv) (now : String) :
    outcomeFor "Player_Stats" (fullUpdate env now) =
      if testGoogleConnection env.google = false then []
      else pubEntry env.google "Player_Stats" (getPlayerStats env.server now).2 := by
  rw [outcomeFor_run]
  have e1 : (("League_Table" : String) == "Player_Stats") = false := by decide
  have e2 : (("Player_Stats" : String) == "Player_Stats") = true := by decide
  have e3 : (("Fixtures_Results" : String) == "Player_Stats") = false := by decide
  rw [e1, e2, e3]
  simp

/-- Helper: the per-destination view of the league-table destination. -/
theorem outcomeFor_league (env : RunEnv) (now : String) :
    outcomeFor "League_Table" (fullUpdate env now) =
      if testGoogleConnection env.google = false then []
      else pubEntry env.google "League_Table" (getPremierLeagueTable env.server now).2 := by
  rw [outcomeFor_run]
  have e1 : (("League_Table" : String) == "League_Table") = true := by decide
  have e2 : (("Player_Stats" : String) == "League_Table") = false := by decide
  have e3 : (("Fixtures_Results" : String) == "League_Table") = false := by decide
  rw [e1, e2, e3]
  simp

/-- Helper: the per-destination view of the fixtures destination. -/
theorem outcomeFor_fixtures (env : RunEnv) (now : String) :
    outcomeFor "Fixtures_Results" (fullUpdate env now) =
      if testGoogleConnection env.google = false then []
      else pubEntry env.google "Fixtures_Results" (getFixturesAndResults env.server now).2 := by
  rw [outcomeFor_run]
  have e1 : (("League_Table" : String) == "Fixtures_Results") = false := by decide
  have e2 : (("Player_Stats" : String) == "Fixtures_Results") = false := by decide
  have e3 : (("Fixtures_Results" : String) == "Fixtures_Results") = true := by decide
  rw [e1, e2, e3]
  simp

/-- Helper: a publish record produced for one dataset carries that
dataset destination name. -/
theorem mem_pubEntry (g : GoogleEnv) (n : String) (d : Option Dataset)
    (p : String × List (List String)) (hp : p ∈ pubEntry g n d) : p.1 = n := by
  cases d with
  | none => cases hp
  | some d =>
    simp only [pubEntry] at hp
    cases hupd : updateGoogleSheet g d with
    | none => rw [hupd] at hp; cases hp
    | some payload =>
      rw [hupd, List.mem_singleton] at hp
      rw [hp]

/-- Claim C3, counterexample: there is no document cache.  On a source
site whose stats page yields a dataset, a first extraction succeeds and
a second extraction against the same url issues a second network
request, refuting the clause that every later extraction against the
same url (forceRefresh false — the code has no such parameter) reads a
cached parsed document without a network call. -/
theorem C3_counterexample :
    (getPlayerStats srvGood "T").2.isSome = true ∧
    (getPlayerStats srvGood "T").1 ++ (getPlayerStats srvGood "T").1
      = [playerStatsUrl, playerStatsUrl] :=
  ⟨rfl, rfl⟩

/-- Claim C3 (amended): within a single run each source page is fetched
exactly once, but only because `full_update` invokes each getter once —
not through any cache: every extraction call issues its own network
request, and the run trace requests the aggregate stats page exactly
once. -/
theorem C3_each_url_once (env : RunEnv) (now : String)
    (hg : testGoogleConnection env.google = true) :
    (fullUpdate env now).sent = [plTableUrl, playerStatsUrl, fixturesUrl] ∧
    (fullUpdate env now).sent.count playerStatsUrl = 1 := by
  have hsent : (fullUpdate env now).sent
      = [plTableUrl, playerStatsUrl, fixturesUrl] := by
    simp [fullUpdate, hg, getPremierLeagueTable, getPlayerStats,
      getFixturesAndResults]
  refine ⟨hsent, ?_⟩
  rw [hsent]
  decide

/-- Witness for `C3_each_url_once` at the fully working environment. -/
theorem C3_witness :
    (fullUpdate envGood "T").sent = [plTableUrl, playerStatsUrl, fixturesUrl] ∧
    (fullUpdate envGood "T").sent.count playerStatsUrl = 1 :=
  C3_each_url_once envGood "T" rfl

/-- Claim C4, counterexample: in the environment whose league page fetch
fails (HTTP 500, no table) while the other pages work, `full_update`
does not abort: the run still requests the remaining pages and
publishes the Player_Stats and Fixtures_Results datasets, refuting the
claim that a failed fetch of the aggregate page aborts the entire run
before any dataset extraction. -/
theorem C4_counterexample :
    (getPremierLeagueTable envTableDown.server "T").2 = none ∧
    (fullUpdate envTableDown "T").sent
      = [plTableUrl, playerStatsUrl, fixturesUrl] ∧
    (fullUpdate envTableDown "T").published.map Prod.fst
      = ["Player_Stats", "Fixtures_Results"] :=
  ⟨rfl, rfl, rfl⟩

/-- Claim C4 (amended): when the league-table extraction produces
nothing, `full_update` continues the run: every remaining page is still
requested, and the published outcomes are exactly those of the
player-stats and fixtures datasets; only a failed Google connectivity
test aborts the run. -/
theorem C4_run_continues (env : RunEnv) (now : String)
    (hg : testGoogleConnection env.google = true)
    (ht : (getPremierLeagueTable env.server now).2 = none) :
    (fullUpdate env now).sent = [plTableUrl, playerStatsUrl, fixturesUrl] ∧
    (fullUpdate env now).published =
      pubEntry env.google "Player_Stats" (getPlayerStats env.server now).2 ++
      pubEntry env.google "Fixtures_Results" (getFixturesAndResults env.server now).2 := by
  have hnf : ¬ (testGoogleConnection env.google = false) := by simp [hg]
  constructor
  · simp [fullUpdate, hg, getPremierLeagueTable, getPlayerStats,
      getFixturesAndResults]
  · simp only [fullUpdate, if_neg hnf]
    rw [ht]
    simp [pubEntry]

/-- Witness for `C4_run_continues` at the environment whose league page
is down. -/
theorem C4_witness :
    (fullUpdate envTableDown "T").sent
      = [plTableUrl, playerStatsUrl, fixturesUrl] ∧
    (fullUpdate envTableDown "T").published =
      pubEntry envTableDown.google "Player_Stats"
        (getPlayerStats envTableDown.server "T").2 ++
      pubEntry envTableDown.google "Fixtures_Results"
        (getFixturesAndResults envTableDown.server "T").2 :=
  C4_run_continues envTableDown "T" rfl rfl

/-- Claim C7: dataset failures are independent and no failure escapes:
each destination outcome of a run is a function of the Google side and
of the response of that dataset own page alone, so a failure of any
other dataset leaves it unaffected; moreover the run is a total
function whose published records carry only the three configured
destination names (every failure is the typed absence of a publish,
never an uncaught fault). -/
theorem C7_dataset_independence (env env2 : RunEnv) (now : String)
    (hgc : env.google = env2.google) :
    (env.server playerStatsUrl = env2.server playerStatsUrl →
      outcomeFor "Player_Stats" (fullUpdate env now)
        = outcomeFor "Player_Stats" (fullUpdate env2 now)) ∧
    (env.server plTableUrl = env2.server plTableUrl →
      outcomeFor "League_Table" (fullUpdate env now)
        = outcomeFor "League_Table" (fullUpdate env2 now)) ∧
    (env.server fixturesUrl = env2.server fixturesUrl →
      outcomeFor "Fixtures_Results" (fullUpdate env now)
        = outcomeFor "Fixtures_Results" (fullUpdate env2 now)) ∧
    (∀ p ∈ (fullUpdate env now).published,
      p.1 = "League_Table" ∨ p.1 = "Player_Stats" ∨ p.1 = "Fixtures_Results") := by
  refine ⟨?_, ?_, ?_, ?_⟩
  · intro hs
    have hres : (getPlayerStats env.server now).2
        = (getPlayerStats env2.server now).2 := by
      simp only [getPlayerStats]
      rw [hs]
    rw [outcomeFor_player, outcomeFor_player, hgc, hres]
  · intro hs
    have hres : (getPremierLeagueTable env.server now).2
        = (getPremierLeagueTable env2.server now).2 := by
      simp only [getPremierLeagueTable]
      rw [hs]
    rw [outcomeFor_league, outcomeFor_league, hgc, hres]
  · intro hs
    have hres : (getFixturesAndResults env.server now).2
        = (getFixturesAndResults env2.server now).2 := by
      simp only [getFixturesAndResults]
      rw [hs]
    rw [outcomeFor_fixtures, outcomeFor_fixtures, hgc, hres]
  · intro p hp
    by_cases hc : testGoogleConnection env.google = false
    · simp [fullUpdate, hc] at hp
    · simp only [fullUpdate, if_neg hc] at hp
      rcases List.mem_append.mp hp with h12 | h3
      · rcases List.mem_append.mp h12 with h1 | h2
        · exact Or.inl (mem_pubEntry _ _ _ _ h1)
        · exact Or.inr (Or.inl (mem_pubEntry _ _ _ _ h2))
      · exact Or.inr (Or.inr (mem_pubEntry _ _ _ _ h3))

/-- Witness for `C7_dataset_independence`: the fully working environment
and the environment whose league page is down agree on the stats page,
so their Player_Stats outcomes agree even though the league dataset
fails in one of them. -/
theorem C7_witness :
    outcomeFor "Player_Stats" (fullUpdate envGood "T")
      = outcomeFor "Player_Stats" (fullUpdate envTableDown "T") :=
  (C7_dataset_independence envGood envTableDown "T" rfl).1 rfl

end PLScraper
